import Mathlib

/-!
Verification of `src/backend/commands/statscmds.c` (extended statistics
object creation and removal) against its specification.

The C file is embedded shallowly: the ambient catalog state (attribute
catalog, type cache, `pg_statistic_ext` contents, fresh-OID supply) is an
explicit `Env`, side effects (catalog insert/delete, relcache invalidation,
dependency registration, notices) are an explicit event trace, and every
`ereport(ERROR, ...)` site is a distinct constructor of `SqlErr`.
`Assert` is modelled as in an assertions-enabled build: a failed assertion
is the distinguished outcome `SqlErr.assertionFailure`.
-/

/-- Upper bound on the number of columns of one statistics object.
Modelled from the spec: MAX_DIMENSIONS (`STATS_MAX_DIMENSIONS` in
`statistics/statistics.h`, a header not included in the sources); the
claims depend only on it being a fixed positive bound, the concrete value
8 matches the referenced header. -/
def STATS_MAX_DIMENSIONS : Nat := 8

/-- Modelled from the spec: catalog class OID of `pg_statistic_ext`
(`StatisticExtRelationId`, from a catalog header not in the sources); only
needs to be a fixed nonzero identifier distinct from the other two. -/
def StatisticExtRelationId : Nat := 3381

/-- Modelled from the spec: catalog class OID of `pg_class`
(`RelationRelationId`); a fixed identifier naming "table" parents of
dependency edges. -/
def RelationRelationId : Nat := 1259

/-- Modelled from the spec: catalog class OID of `pg_namespace`
(`NamespaceRelationId`); a fixed identifier naming "schema" parents of
dependency edges. -/
def NamespaceRelationId : Nat := 2615

/-- The statistics kinds of `pg_statistic_ext.stxkind`
(`STATS_EXT_NDISTINCT` / `STATS_EXT_DEPENDENCIES`). -/
inductive StatKind where
  | ndistinct
  | dependencies
deriving DecidableEq, Repr

/-- `ObjectAddress` from the C sources: catalog class, object id, sub-id. -/
structure ObjectAddress where
  classId : Nat
  objectId : Nat
  objectSubId : Int
deriving DecidableEq, Repr

/-- `InvalidObjectAddress`: the all-zero object address. -/
def InvalidObjectAddress : ObjectAddress := ⟨0, 0, 0⟩

/-- Dependency kinds of `recordDependencyOn`; only `DEPENDENCY_AUTO` is
used by this file, `normal` stands for the rest of the enumeration. -/
inductive DependencyType where
  | auto
  | normal
deriving DecidableEq, Repr

/-- Relation kinds (`relkind`) relevant to the check in `CreateStatistics`. -/
inductive RelKind where
  | relation
  | index
  | sequence
  | view
  | matview
  | foreignTable
  | partitionedTable
deriving DecidableEq, Repr

/-- One distinct error constructor per `ereport(ERROR, ...)` / `elog(ERROR)`
site of `statscmds.c`, plus `assertionFailure` for a failed `Assert`. -/
inductive SqlErr where
  /-- `ERRCODE_DUPLICATE_OBJECT`: statistics name already exists. -/
  | duplicateObject
  /-- `ERRCODE_WRONG_OBJECT_TYPE`: relation is not a table-like object. -/
  | wrongObjectType
  /-- `ERRCODE_UNDEFINED_COLUMN`: referenced column does not exist. -/
  | undefinedColumn (attname : String)
  /-- `ERRCODE_FEATURE_NOT_SUPPORTED`: system column in statistics. -/
  | systemColumnNotSupported
  /-- `ERRCODE_FEATURE_NOT_SUPPORTED`: type has no less-than operator. -/
  | noOrderingOperator (attname : String)
  /-- `ERRCODE_TOO_MANY_COLUMNS`: more than `STATS_MAX_DIMENSIONS` columns. -/
  | tooManyColumns
  /-- `ERRCODE_INVALID_OBJECT_DEFINITION`: fewer than 2 columns. -/
  | invalidObjectDefinition
  /-- `ERRCODE_DUPLICATE_COLUMN`: same column listed twice. -/
  | duplicateColumn
  /-- `ERRCODE_SYNTAX_ERROR`: unrecognized STATISTICS option. -/
  | unrecognizedOption (optname : String)
  /-- A failed `Assert` (assertions-enabled build). -/
  | assertionFailure
  /-- `elog(ERROR, "cache lookup failed for statistics %u")`. -/
  | internalCacheLookupFailed
deriving DecidableEq, Repr

/-- The fields of a `pg_attribute` tuple that `CreateStatistics` reads:
attribute number (negative for system columns) and type OID. -/
structure AttInfo where
  attnum : Int
  atttypid : Nat
deriving DecidableEq, Repr

/-- One row of `pg_statistic_ext`, as built by `CreateStatistics`.
`stxndistinct` / `stxdependencies` are `none` when the corresponding
`nulls[]` entry is true. -/
structure StxRow where
  oid : Nat
  stxrelid : Nat
  stxname : String
  stxnamespace : Nat
  stxowner : Nat
  stxkeys : List Int
  stxkind : List StatKind
  stxndistinct : Option Unit
  stxdependencies : Option Unit
deriving DecidableEq, Repr

/-- Observable side effects, in program order. -/
inductive Event where
  /-- `CatalogTupleInsert` into `pg_statistic_ext`. -/
  | insertRow (row : StxRow)
  /-- `simple_heap_delete` of a `pg_statistic_ext` row. -/
  | deleteRow (oid : Nat)
  /-- `CacheInvalidateRelcache` / `CacheInvalidateRelcacheByRelid`. -/
  | invalidateRel (relid : Nat)
  /-- `recordDependencyOn(child, parent, kind)`. -/
  | recordDep (child parent : ObjectAddress) (kind : DependencyType)
  /-- The `ereport(NOTICE, ...)` of the IF NOT EXISTS skip path. -/
  | notice
deriving DecidableEq, Repr

/-- The ambient catalog state seen by one `CreateStatistics` /
`RemoveStatisticsById` call.  External collaborators
(`QualifiedNameGetCreationNamespace`, `relation_openrv`,
`SearchSysCacheAttName`, `lookup_type_cache`, syscache contents,
`GetUserId`, OID assignment at insert) are fields. -/
structure Env where
  /-- Namespace OID from `QualifiedNameGetCreationNamespace`. -/
  creationNamespace : Nat
  /-- `GetUserId()`. -/
  userId : Nat
  /-- OID of `stmt->relation` as opened by `relation_openrv`. -/
  relid : Nat
  /-- `rel->rd_rel->relkind` of the target relation. -/
  relkind : RelKind
  /-- `SearchSysCacheAttName`: attributes of the target relation by name. -/
  attrs : List (String × AttInfo)
  /-- Type OIDs whose type-cache entry has a valid `lt_opr`. -/
  ltOprTypes : List Nat
  /-- Current contents of `pg_statistic_ext` (syscache-visible rows). -/
  stxCatalog : List StxRow
  /-- OID the catalog assigns to the row inserted by this call. -/
  freshOid : Nat

/-- Equality of `Except` results is decidable, so concrete runs of the
embedded functions can be checked by `decide`. -/
instance instDecidableEqExcept {e a : Type} [DecidableEq e] [DecidableEq a] :
    DecidableEq (Except e a) := fun x y =>
  match x, y with
  | .error u, .error v =>
    match decEq u v with
    | isTrue h => isTrue (by rw [h])
    | isFalse h => isFalse (fun hh => by cases hh; exact h rfl)
  | .ok u, .ok v =>
    match decEq u v with
    | isTrue h => isTrue (by rw [h])
    | isFalse h => isFalse (fun hh => by cases hh; exact h rfl)
  | .error _, .ok _ => isFalse (fun hh => by cases hh)
  | .ok _, .error _ => isFalse (fun hh => by cases hh)

/-- `SearchSysCacheAttName(relid, attname)`. -/
def lookupAttr (env : Env) (attname : String) : Option AttInfo :=
  (env.attrs.find? (fun p => p.1 == attname)).map Prod.snd

/-- `lookup_type_cache(atttypid, TYPECACHE_LT_OPR)->lt_opr != InvalidOid`. -/
def hasLtOpr (env : Env) (typid : Nat) : Bool :=
  env.ltOprTypes.contains typid

/-- `SearchSysCacheExists2(STATEXTNAMENSP, name, namespace)`. -/
def statNameExists (env : Env) (namestr : String) (namespaceId : Nat) : Bool :=
  env.stxCatalog.any (fun r => r.stxname == namestr && r.stxnamespace == namespaceId)

/-- The relkind test of `CreateStatistics`: table, materialized view,
foreign table or partitioned table. -/
def validRelKind : RelKind → Bool
  | RelKind.relation => true
  | RelKind.matview => true
  | RelKind.foreignTable => true
  | RelKind.partitionedTable => true
  | _ => false

/-- The `foreach(l, stmt->keys)` loop of `CreateStatistics`: resolve each
column name in order, rejecting missing columns, system columns, types
without a less-than operator, and (incrementally, before appending the
newly resolved attnum) more than `STATS_MAX_DIMENSIONS` columns.
`attnums` is the accumulator array, input order preserved. -/
def resolveLoop (env : Env) : List String → List Int → Except SqlErr (List Int)
  | [], attnums => .ok attnums
  | attname :: rest, attnums =>
    match lookupAttr env attname with
    | none => .error (SqlErr.undefinedColumn attname)
    | some attForm =>
      if attForm.attnum < 0 then
        .error SqlErr.systemColumnNotSupported
      else if ¬ hasLtOpr env attForm.atttypid then
        .error (SqlErr.noOrderingOperator attname)
      else if STATS_MAX_DIMENSIONS ≤ attnums.length then
        .error SqlErr.tooManyColumns
      else
        resolveLoop env rest (attnums ++ [attForm.attnum])

/-- The adjacent-duplicate scan over the sorted attnum array
(`for (i = 1; i < numcols; i++) if (attnums[i] == attnums[i-1]) ...`). -/
def checkDuplicateCols : List Int → Except SqlErr Unit
  | a :: b :: rest =>
    if a = b then .error SqlErr.duplicateColumn
    else checkDuplicateCols (b :: rest)
  | _ => .ok ()

/-- The `foreach(l, stmt->options)` loop: state is
(`build_ndistinct`, `build_dependencies`, `requested_type`). -/
def selectKindFlags : List (String × Bool) → Bool × Bool × Bool →
    Except SqlErr (Bool × Bool × Bool)
  | [], st => .ok st
  | (optname, val) :: rest, (bn, bd, _req) =>
    if optname = "ndistinct" then
      selectKindFlags rest (val, bd, true)
    else if optname = "dependencies" then
      selectKindFlags rest (bn, val, true)
    else
      .error (SqlErr.unrecognizedOption optname)

/-- The `types[]` array of enabled statistic kinds, in construction order:
ndistinct first, then dependencies. -/
def kindArray (bn bd : Bool) : List StatKind :=
  (if bn then [StatKind.ndistinct] else []) ++
    (if bd then [StatKind.dependencies] else [])

/-- The Kind Selector: parse the options, default to all kinds when no
option was supplied at all, and build the kind array. -/
def selectKinds (options : List (String × Bool)) : Except SqlErr (List StatKind) :=
  match selectKindFlags options (false, false, false) with
  | .error e => .error e
  | .ok (bn, bd, req) =>
    if ¬ req then .ok (kindArray true true)
    else .ok (kindArray bn bd)

/-- The parsed form of a `CREATE STATISTICS` statement that
`CreateStatistics` consumes.  `defname` is the name component after
`QualifiedNameGetCreationNamespace` (namespace resolution is external and
sits in `Env.creationNamespace`). -/
structure CreateStatsStmt where
  defname : String
  if_not_exists : Bool
  keys : List String
  options : List (String × Bool)

/-- `CreateStatistics` from `statscmds.c`.  Returns the object address and
the trace of side effects in program order, or the first error raised.
Errors abort the statement, so an erroring run contributes no events
(transactional all-or-nothing). -/
def CreateStatistics (env : Env) (stmt : CreateStatsStmt) :
    Except SqlErr (ObjectAddress × List Event) :=
  let namestr := stmt.defname
  let namespaceId := env.creationNamespace
  if statNameExists env namestr namespaceId then
    if stmt.if_not_exists then
      .ok (InvalidObjectAddress, [Event.notice])
    else
      .error SqlErr.duplicateObject
  else
    let relid := env.relid
    if ¬ validRelKind env.relkind then
      .error SqlErr.wrongObjectType
    else
      match resolveLoop env stmt.keys [] with
      | .error e => .error e
      | .ok attnums =>
        if attnums.length < 2 then
          .error SqlErr.invalidObjectDefinition
        else
          let stxkeys := List.insertionSort (· ≤ ·) attnums
          match checkDuplicateCols stxkeys with
          | .error e => .error e
          | .ok _ =>
            match selectKinds stmt.options with
            | .error e => .error e
            | .ok types =>
              if ¬ (0 < types.length ∧ types.length ≤ 2) then
                .error SqlErr.assertionFailure
              else
                let statoid := env.freshOid
                let row : StxRow :=
                  { oid := statoid
                    stxrelid := relid
                    stxname := namestr
                    stxnamespace := namespaceId
                    stxowner := env.userId
                    stxkeys := stxkeys
                    stxkind := types
                    stxndistinct := none
                    stxdependencies := none }
                let childobject : ObjectAddress := ⟨StatisticExtRelationId, statoid, 0⟩
                .ok (⟨StatisticExtRelationId, statoid, 0⟩,
                  [Event.insertRow row,
                   Event.invalidateRel relid,
                   Event.recordDep childobject ⟨RelationRelationId, relid, 0⟩ DependencyType.auto,
                   Event.recordDep childobject ⟨NamespaceRelationId, namespaceId, 0⟩ DependencyType.auto])

/-- `RemoveStatisticsById` from `statscmds.c`: look the row up by OID
(`SearchSysCache1(STATEXTOID, ...)`), fail internally when absent,
otherwise invalidate the owning relation's relcache and delete the row. -/
def RemoveStatisticsById (env : Env) (statsOid : Nat) : Except SqlErr (List Event) :=
  match env.stxCatalog.find? (fun r => r.oid == statsOid) with
  | none => .error SqlErr.internalCacheLookupFailed
  | some tup =>
    .ok [Event.invalidateRel tup.stxrelid, Event.deleteRow statsOid]

/-- A column name passes every per-column check of the resolution loop:
it resolves, is not a system column, and its type has a less-than
operator. -/
def keyOk (env : Env) (attname : String) : Bool :=
  match lookupAttr env attname with
  | none => false
  | some attForm =>
    if attForm.attnum < 0 then false
    else hasLtOpr env attForm.atttypid

/-- The attribute number a column name resolves to (0 when absent; only
used under a `keyOk` hypothesis). -/
def resolvedAttnum (env : Env) (attname : String) : Int :=
  match lookupAttr env attname with
  | none => 0
  | some attForm => attForm.attnum

/-- Selects the `recordDependencyOn` events of a trace. -/
def isDepEvent : Event → Bool
  | Event.recordDep _ _ _ => true
  | _ => false

/-- A concrete environment for instantiating the theorems: a relation with
nine orderable user columns `a`..`i`, a system column `ctid`, and a column
`t` whose type (OID 600) has no less-than operator. -/
def tenv : Env :=
  { creationNamespace := 11
    userId := 10
    relid := 5001
    relkind := RelKind.relation
    attrs := [("a", ⟨1, 23⟩), ("b", ⟨2, 23⟩), ("c", ⟨3, 25⟩), ("d", ⟨4, 23⟩),
              ("e", ⟨5, 23⟩), ("f", ⟨6, 23⟩), ("g", ⟨7, 23⟩), ("h", ⟨8, 23⟩),
              ("i", ⟨9, 23⟩), ("ctid", ⟨-1, 27⟩), ("t", ⟨10, 600⟩)]
    ltOprTypes := [23, 25]
    stxCatalog := []
    freshOid := 90001 }

/-- A pre-existing `pg_statistic_ext` row named `s1` in namespace 11, for
exercising the duplicate-name paths. -/
def s1row : StxRow :=
  { oid := 777
    stxrelid := 5001
    stxname := "s1"
    stxnamespace := 11
    stxowner := 10
    stxkeys := [1, 2]
    stxkind := [StatKind.ndistinct]
    stxndistinct := none
    stxdependencies := none }

/-- `tenv` with `s1` already present. -/
def tenvDup : Env := { tenv with stxCatalog := [s1row] }

def stmtBA : CreateStatsStmt :=
  { defname := "s1", if_not_exists := false, keys := ["b", "a"], options := [] }

def stmt9dup : CreateStatsStmt :=
  { defname := "s1", if_not_exists := false,
    keys := ["a", "b", "c", "d", "e", "f", "g", "h", "a"], options := [] }

def stmtNdFalse : CreateStatsStmt :=
  { defname := "s1", if_not_exists := false, keys := ["a", "b"],
    options := [("ndistinct", false)] }

def stmtBadColDupName : CreateStatsStmt :=
  { defname := "s1", if_not_exists := false, keys := ["zzz", "a"], options := [] }

def demoRow : StxRow :=
  { oid := 90001
    stxrelid := 5001
    stxname := "s1"
    stxnamespace := 11
    stxowner := 10
    stxkeys := [1, 2]
    stxkind := [StatKind.ndistinct, StatKind.dependencies]
    stxndistinct := none
    stxdependencies := none }

def demoEvs : List Event :=
  [Event.insertRow demoRow,
   Event.invalidateRel 5001,
   Event.recordDep ⟨3381, 90001, 0⟩ ⟨1259, 5001, 0⟩ DependencyType.auto,
   Event.recordDep ⟨3381, 90001, 0⟩ ⟨2615, 11, 0⟩ DependencyType.auto]

theorem resolveLoop_ok (env : Env) :
    ∀ (keys : List String) (acc : List Int),
      (∀ k ∈ keys, keyOk env k = true) →
      acc.length + keys.length ≤ STATS_MAX_DIMENSIONS →
      resolveLoop env keys acc = .ok (acc ++ keys.map (resolvedAttnum env))
  | [], acc, _, _ => by simp [resolveLoop]
  | k :: rest, acc, hok, hlen => by
    have hk := hok k (List.mem_cons_self _ _)
    unfold keyOk at hk
    cases hlu : lookupAttr env k with
    | none => rw [hlu] at hk; exact absurd hk (by simp)
    | some attForm =>
      rw [hlu] at hk
      dsimp only at hk
      by_cases hneg : attForm.attnum < 0
      · rw [if_pos hneg] at hk; exact absurd hk (by simp)
      · rw [if_neg hneg] at hk
        have hacc : ¬ STATS_MAX_DIMENSIONS ≤ acc.length := by
          simp only [List.length_cons] at hlen
          omega
        have hrest : resolveLoop env rest (acc ++ [attForm.attnum]) =
            .ok ((acc ++ [attForm.attnum]) ++ rest.map (resolvedAttnum env)) := by
          apply resolveLoop_ok env rest (acc ++ [attForm.attnum])
          · exact fun x hx => hok x (List.mem_cons_of_mem _ hx)
          · simp only [List.length_append, List.length_cons, List.length_nil] at hlen ⊢
            omega
        simp only [resolveLoop, hlu]
        rw [if_neg hneg, if_neg (by simp [hk]), if_neg hacc, hrest]
        simp [resolvedAttnum, hlu, List.append_assoc]

theorem resolveLoop_tooMany (env : Env) :
    ∀ (keys : List String) (acc : List Int),
      (∀ k ∈ keys.take (STATS_MAX_DIMENSIONS + 1 - acc.length), keyOk env k = true) →
      acc.length ≤ STATS_MAX_DIMENSIONS →
      STATS_MAX_DIMENSIONS < acc.length + keys.length →
      resolveLoop env keys acc = .error SqlErr.tooManyColumns
  | [], acc, _, hacc, hlen => by
    simp only [List.length_nil] at hlen
    omega
  | k :: rest, acc, hok, hacc, hlen => by
    have htake : 0 < STATS_MAX_DIMENSIONS + 1 - acc.length := by omega
    have hk : keyOk env k = true := by
      apply hok k
      have hm : STATS_MAX_DIMENSIONS + 1 - acc.length =
          (STATS_MAX_DIMENSIONS - acc.length) + 1 := by omega
      rw [hm, List.take_succ_cons]
      exact List.mem_cons_self _ _
    unfold keyOk at hk
    cases hlu : lookupAttr env k with
    | none => rw [hlu] at hk; exact absurd hk (by simp)
    | some attForm =>
      rw [hlu] at hk
      dsimp only at hk
      by_cases hneg : attForm.attnum < 0
      · rw [if_pos hneg] at hk; exact absurd hk (by simp)
      · rw [if_neg hneg] at hk
        by_cases hfull : STATS_MAX_DIMENSIONS ≤ acc.length
        · simp only [resolveLoop, hlu]
          rw [if_neg hneg, if_neg (by simp [hk]), if_pos hfull]
        · have hrest : resolveLoop env rest (acc ++ [attForm.attnum]) =
              .error SqlErr.tooManyColumns := by
            apply resolveLoop_tooMany env rest (acc ++ [attForm.attnum])
            · intro x hx
              have hlen1 : (acc ++ [attForm.attnum]).length = acc.length + 1 := by
                simp
              rw [hlen1] at hx
              apply hok x
              have hm : STATS_MAX_DIMENSIONS + 1 - acc.length =
                  (STATS_MAX_DIMENSIONS + 1 - (acc.length + 1)) + 1 := by omega
              rw [hm, List.take_succ_cons]
              exact List.mem_cons_of_mem _ hx
            · simp only [List.length_append, List.length_cons, List.length_nil]
              omega
            · simp only [List.length_append, List.length_cons, List.length_nil] at hlen ⊢
              omega
          simp only [resolveLoop, hlu]
          rw [if_neg hneg, if_neg (by simp [hk]), if_neg hfull, hrest]

theorem checkDuplicateCols_ok_iff :
    ∀ l : List Int, checkDuplicateCols l = .ok () ↔ l.Chain' (· ≠ ·)
  | [] => by simp [checkDuplicateCols]
  | [a] => by simp [checkDuplicateCols]
  | a :: b :: rest => by
    by_cases hab : a = b
    · simp [checkDuplicateCols, hab]
    · rw [List.chain'_cons]
      simp only [checkDuplicateCols, hab, if_false, ite_false]
      rw [checkDuplicateCols_ok_iff (b :: rest)]
      simp [hab]

theorem checkDuplicateCols_cases :
    ∀ l : List Int, checkDuplicateCols l = .ok () ∨
      checkDuplicateCols l = .error SqlErr.duplicateColumn
  | [] => Or.inl rfl
  | [_] => Or.inl rfl
  | a :: b :: rest => by
    by_cases hab : a = b
    · right; simp [checkDuplicateCols, hab]
    · have := checkDuplicateCols_cases (b :: rest)
      simpa [checkDuplicateCols, hab] using this

theorem nodup_of_sorted_of_chain_ne :
    ∀ l : List Int, l.Sorted (· ≤ ·) → l.Chain' (· ≠ ·) → l.Nodup
  | [] , _, _ => List.nodup_nil
  | [a], _, _ => List.nodup_singleton a
  | a :: b :: rest, hs, hc => by
    rw [List.chain'_cons] at hc
    have hs' := hs.of_cons
    have hab : a < b := lt_of_le_of_ne (List.rel_of_sorted_cons hs b (List.mem_cons_self _ _)) hc.1
    have hrec := nodup_of_sorted_of_chain_ne (b :: rest) hs' hc.2
    refine List.nodup_cons.mpr ⟨?_, hrec⟩
    intro hmem
    have hle : b ≤ a := List.rel_of_sorted_cons hs' a ?_
    · omega
    · cases hmem with
      | head => exact absurd rfl hc.1
      | tail _ h => exact h

theorem selectKindFlags_req_true :
    ∀ (opts : List (String × Bool)) (bn bd : Bool) (res : Bool × Bool × Bool),
      selectKindFlags opts (bn, bd, true) = .ok res → res.2.2 = true
  | [], bn, bd, res => by
    intro h
    simp [selectKindFlags] at h
    rw [← h]
  | (n, v) :: rest, bn, bd, res => by
    intro h
    simp only [selectKindFlags] at h
    by_cases h1 : n = "ndistinct"
    · rw [if_pos h1] at h
      exact selectKindFlags_req_true rest v bd res h
    · rw [if_neg h1] at h
      by_cases h2 : n = "dependencies"
      · rw [if_pos h2] at h
        exact selectKindFlags_req_true rest bn v res h
      · rw [if_neg h2] at h
        exact absurd h (by simp)

theorem createStatistics_ok_shape (env : Env) (stmt : CreateStatsStmt)
    (addr : ObjectAddress) (evs : List Event)
    (h : CreateStatistics env stmt = .ok (addr, evs))
    (hname : statNameExists env stmt.defname env.creationNamespace = false) :
    ∃ row : StxRow,
      addr = ⟨StatisticExtRelationId, env.freshOid, 0⟩ ∧
      row.oid = env.freshOid ∧
      evs = [Event.insertRow row,
             Event.invalidateRel env.relid,
             Event.recordDep ⟨StatisticExtRelationId, env.freshOid, 0⟩
               ⟨RelationRelationId, env.relid, 0⟩ DependencyType.auto,
             Event.recordDep ⟨StatisticExtRelationId, env.freshOid, 0⟩
               ⟨NamespaceRelationId, env.creationNamespace, 0⟩ DependencyType.auto] := by
  simp only [CreateStatistics, hname, Bool.false_eq_true, if_false, ite_false] at h
  split at h
  · exact absurd h (by simp)
  · split at h
    · exact absurd h (by simp)
    · split at h
      · exact absurd h (by simp)
      · split at h
        · exact absurd h (by simp)
        · split at h
          · exact absurd h (by simp)
          · split at h
            · exact absurd h (by simp)
            · rw [Except.ok.injEq, Prod.mk.injEq] at h
              refine ⟨_, h.1.symm, rfl, h.2.symm⟩

theorem kindArray_length_le (bn bd : Bool) : (kindArray bn bd).length ≤ 2 := by
  cases bn <;> cases bd <;> simp [kindArray]

theorem selectKinds_length_le (opts : List (String × Bool)) (ts : List StatKind)
    (h : selectKinds opts = .ok ts) : ts.length ≤ 2 := by
  unfold selectKinds at h
  split at h
  · exact absurd h (by simp)
  · split at h <;>
      (rw [Except.ok.injEq] at h; rw [← h]; exact kindArray_length_le _ _)

/-- Claim C1: for every input column-name list of length between 2 and
`STATS_MAX_DIMENSIONS` whose names all resolve to distinct, non-system
attributes of orderable type (under a fresh name, a table-like target
relation, and options the Kind Selector accepts with a non-empty kind
set), `CreateStatistics` succeeds, and the persisted row's column list is
the ascending-sorted rearrangement of the input's attribute numbers --
hence independent of the input order -- with both computed-statistics
payload fields stored as null. -/
theorem createStatistics_valid_columns (env : Env) (stmt : CreateStatsStmt)
    (hname : statNameExists env stmt.defname env.creationNamespace = false)
    (hkind : validRelKind env.relkind = true)
    (hres : ∀ k ∈ stmt.keys, keyOk env k = true)
    (hlen2 : 2 ≤ stmt.keys.length)
    (hlenM : stmt.keys.length ≤ STATS_MAX_DIMENSIONS)
    (hdist : (stmt.keys.map (resolvedAttnum env)).Nodup)
    (ts : List StatKind)
    (hts : selectKinds stmt.options = .ok ts)
    (htsne : 0 < ts.length) :
    ∃ row : StxRow,
      CreateStatistics env stmt =
        .ok (⟨StatisticExtRelationId, env.freshOid, 0⟩,
          [Event.insertRow row,
           Event.invalidateRel env.relid,
           Event.recordDep ⟨StatisticExtRelationId, env.freshOid, 0⟩
             ⟨RelationRelationId, env.relid, 0⟩ DependencyType.auto,
           Event.recordDep ⟨StatisticExtRelationId, env.freshOid, 0⟩
             ⟨NamespaceRelationId, env.creationNamespace, 0⟩ DependencyType.auto]) ∧
      row.stxkeys.Perm (stmt.keys.map (resolvedAttnum env)) ∧
      row.stxkeys.Sorted (· ≤ ·) ∧
      row.stxkind = ts ∧
      row.stxndistinct = none ∧
      row.stxdependencies = none := by
  have hrl : resolveLoop env stmt.keys [] = .ok (stmt.keys.map (resolvedAttnum env)) := by
    have := resolveLoop_ok env stmt.keys [] hres (by simpa using hlenM)
    simpa using this
  have hperm : (List.insertionSort (· ≤ ·) (stmt.keys.map (resolvedAttnum env))).Perm
      (stmt.keys.map (resolvedAttnum env)) := List.perm_insertionSort _ _
  have hsorted : (List.insertionSort (· ≤ ·) (stmt.keys.map (resolvedAttnum env))).Sorted
      (· ≤ ·) := List.sorted_insertionSort _ _
  have hnodup : (List.insertionSort (· ≤ ·) (stmt.keys.map (resolvedAttnum env))).Nodup :=
    hperm.nodup_iff.mpr hdist
  have hdc : checkDuplicateCols (List.insertionSort (· ≤ ·)
      (stmt.keys.map (resolvedAttnum env))) = .ok () :=
    (checkDuplicateCols_ok_iff _).mpr hnodup.chain'
  have hlenmap : ¬ (stmt.keys.map (resolvedAttnum env)).length < 2 := by
    rw [List.length_map]; omega
  have hassert : ¬ ¬ (0 < ts.length ∧ ts.length ≤ 2) :=
    not_not_intro ⟨htsne, selectKinds_length_le stmt.options ts hts⟩
  refine ⟨⟨env.freshOid, env.relid, stmt.defname, env.creationNamespace, env.userId,
      List.insertionSort (· ≤ ·) (stmt.keys.map (resolvedAttnum env)), ts, none, none⟩,
    ?_, hperm, hsorted, rfl, rfl, rfl⟩
  simp only [CreateStatistics, hname, Bool.false_eq_true, if_false, ite_false]
  rw [if_neg (by simp [hkind]), hrl]
  simp only [hlenmap, ite_false, if_false, hdc, hts]
  rw [if_neg hassert]

theorem createStatistics_valid_columns_witness :
    ∃ row : StxRow,
      CreateStatistics tenv stmtBA =
        .ok (⟨StatisticExtRelationId, tenv.freshOid, 0⟩,
          [Event.insertRow row,
           Event.invalidateRel tenv.relid,
           Event.recordDep ⟨StatisticExtRelationId, tenv.freshOid, 0⟩
             ⟨RelationRelationId, tenv.relid, 0⟩ DependencyType.auto,
           Event.recordDep ⟨StatisticExtRelationId, tenv.freshOid, 0⟩
             ⟨NamespaceRelationId, tenv.creationNamespace, 0⟩ DependencyType.auto]) ∧
      row.stxkeys.Perm (stmtBA.keys.map (resolvedAttnum tenv)) ∧
      row.stxkeys.Sorted (· ≤ ·) ∧
      row.stxkind = [StatKind.ndistinct, StatKind.dependencies] ∧
      row.stxndistinct = none ∧
      row.stxdependencies = none :=
  createStatistics_valid_columns tenv stmtBA (by decide) (by decide) (by decide)
    (by decide) (by decide) (by decide) [StatKind.ndistinct, StatKind.dependencies]
    (by decide) (by decide)

theorem two_le_length_of_not_nodup :
    ∀ l : List Int, ¬ l.Nodup → 2 ≤ l.length
  | [], h => absurd List.nodup_nil h
  | [a], h => absurd (List.nodup_singleton a) h
  | _ :: _ :: _, _ => by simp only [List.length_cons]; omega

theorem createStatistics_resolve_error (env : Env) (stmt : CreateStatsStmt) (e : SqlErr)
    (hname : statNameExists env stmt.defname env.creationNamespace = false)
    (hkind : validRelKind env.relkind = true)
    (hrl : resolveLoop env stmt.keys [] = .error e) :
    CreateStatistics env stmt = .error e := by
  simp only [CreateStatistics, hname, Bool.false_eq_true, if_false, ite_false]
  rw [if_neg (by simp [hkind]), hrl]

theorem selectKindFlags_explicit :
    ∀ (opts : List (String × Bool)) (st : Bool × Bool × Bool) (res : Bool × Bool × Bool),
      selectKindFlags opts st = .ok res → opts ≠ [] → res.2.2 = true
  | [], _, _ => fun _ hne => absurd rfl hne
  | (n, v) :: rest, (bn, bd, _r), res => by
    intro h _
    simp only [selectKindFlags] at h
    by_cases h1 : n = "ndistinct"
    · rw [if_pos h1] at h
      exact selectKindFlags_req_true rest v bd res h
    · rw [if_neg h1] at h
      by_cases h2 : n = "dependencies"
      · rw [if_pos h2] at h
        exact selectKindFlags_req_true rest bn v res h
      · rw [if_neg h2] at h
        exact absurd h (by simp)

/-- Claim C2: with a (name, namespace) that already names a statistics
object, `CreateStatistics` fails with `duplicateObject` when
`if_not_exists` is false, and with `if_not_exists` true it succeeds as a
no-op whose only effect is the informational notice (no catalog
mutation). -/
theorem createStatistics_duplicate_name (env : Env) (stmt : CreateStatsStmt)
    (hdup : statNameExists env stmt.defname env.creationNamespace = true) :
    (stmt.if_not_exists = false →
      CreateStatistics env stmt = .error SqlErr.duplicateObject) ∧
    (stmt.if_not_exists = true →
      CreateStatistics env stmt = .ok (InvalidObjectAddress, [Event.notice])) := by
  constructor <;> intro hine <;> simp [CreateStatistics, hdup, hine]

theorem createStatistics_duplicate_name_witness :
    (CreateStatistics tenvDup
      { defname := "s1", if_not_exists := false, keys := ["a", "b"], options := [] } =
      .error SqlErr.duplicateObject) ∧
    (CreateStatistics tenvDup
      { defname := "s1", if_not_exists := true, keys := ["a", "b"], options := [] } =
      .ok (InvalidObjectAddress, [Event.notice])) :=
  ⟨(createStatistics_duplicate_name tenvDup
      { defname := "s1", if_not_exists := false, keys := ["a", "b"], options := [] }
      (by decide)).1 rfl,
   (createStatistics_duplicate_name tenvDup
      { defname := "s1", if_not_exists := true, keys := ["a", "b"], options := [] }
      (by decide)).2 rfl⟩

/-- Claim C9: when the name already exists and `if_not_exists` is set,
`CreateStatistics` returns the all-zero `InvalidObjectAddress`, which is
not the address of any statistics object (those have class
`StatisticExtRelationId`), in particular not of the pre-existing one. -/
theorem createStatistics_skip_returns_invalid_address (env : Env) (stmt : CreateStatsStmt)
    (hdup : statNameExists env stmt.defname env.creationNamespace = true)
    (hine : stmt.if_not_exists = true) :
    CreateStatistics env stmt = .ok (InvalidObjectAddress, [Event.notice]) ∧
    InvalidObjectAddress = ⟨0, 0, 0⟩ ∧
    ∀ oid : Nat, InvalidObjectAddress ≠ ⟨StatisticExtRelationId, oid, 0⟩ := by
  refine ⟨by simp [CreateStatistics, hdup, hine], rfl, ?_⟩
  intro oid h
  rw [InvalidObjectAddress, ObjectAddress.mk.injEq] at h
  exact absurd h.1 (by simp [StatisticExtRelationId])

theorem createStatistics_skip_returns_invalid_address_witness :
    CreateStatistics tenvDup
      { defname := "s1", if_not_exists := true, keys := ["a", "b"], options := [] } =
      .ok (InvalidObjectAddress, [Event.notice]) ∧
    InvalidObjectAddress = ⟨0, 0, 0⟩ ∧
    ∀ oid : Nat, InvalidObjectAddress ≠ ⟨StatisticExtRelationId, oid, 0⟩ :=
  createStatistics_skip_returns_invalid_address tenvDup
    { defname := "s1", if_not_exists := true, keys := ["a", "b"], options := [] }
    (by decide) rfl

/-- Claim C3 is a code bug: with `WITH (ndistinct=false)` and nothing
else, the option loop marks a kind as requested, so the all-kinds default
is suppressed, both build flags end up false, the selected kind set is
empty, and `Assert(ntypes > 0)` fails at the tuple-building step
(contradicting the claim that the assertion holds on every such path). -/
theorem createStatistics_all_false_options_assertion_fails :
    selectKinds [("ndistinct", false)] = .ok [] ∧
    CreateStatistics tenv stmtNdFalse = .error SqlErr.assertionFailure := by decide

/-- Claim C4: kind selection defaults.  With no options at all both kinds
are requested; with only `dependencies=true` exactly `{dependencies}` is
requested; and whenever any option was supplied (necessarily a recognized
one, as the loop rejects others) the explicit-request flag is set and the
result is exactly the explicitly toggled kinds, the all-kinds default
being suppressed even if every toggle is false. -/
theorem selectKinds_defaults_and_explicit :
    selectKinds [] = .ok [StatKind.ndistinct, StatKind.dependencies] ∧
    selectKinds [("dependencies", true)] = .ok [StatKind.dependencies] ∧
    (∀ (opts : List (String × Bool)) (bn bd req : Bool),
      selectKindFlags opts (false, false, false) = .ok (bn, bd, req) →
      opts ≠ [] →
      req = true ∧ selectKinds opts = .ok (kindArray bn bd)) := by
  refine ⟨by decide, by decide, ?_⟩
  intro opts bn bd req h hne
  have hreq : req = true := selectKindFlags_explicit opts (false, false, false) (bn, bd, req) h hne
  constructor
  · exact hreq
  · simp [selectKinds, h, hreq]

theorem selectKinds_defaults_and_explicit_witness :
    true = true ∧ selectKinds [("ndistinct", false)] = .ok (kindArray false false) :=
  (selectKinds_defaults_and_explicit.2.2 [("ndistinct", false)] false false true
    (by decide) (by decide))

/-- Counterexample to claim C5 as stated: this input list names column
`a` twice, yet (being longer than `STATS_MAX_DIMENSIONS` with every name
resolvable) it fails with `tooManyColumns`, not `duplicateColumn`. -/
theorem createStatistics_duplicate_not_reported_on_long_list :
    (¬ (stmt9dup.keys.map (resolvedAttnum tenv)).Nodup) ∧
    CreateStatistics tenv stmt9dup = .error SqlErr.tooManyColumns ∧
    SqlErr.tooManyColumns ≠ SqlErr.duplicateColumn := by decide

/-- Claim C5 (amended): with a fresh name, a table-like target and fully
resolvable column names: fewer than 2 columns fail with
`invalidObjectDefinition`; more than `STATS_MAX_DIMENSIONS` columns fail
with `tooManyColumns`; and a repeated column fails with
`duplicateColumn` in any input ordering, provided the list does not also
exceed `STATS_MAX_DIMENSIONS` (in which case `tooManyColumns` is
reported instead, as the bound is checked during resolution and the
duplicate scan runs only afterwards). -/
theorem createStatistics_arity_and_duplicate_validation :
    (∀ (env : Env) (stmt : CreateStatsStmt),
      statNameExists env stmt.defname env.creationNamespace = false →
      validRelKind env.relkind = true →
      (∀ k ∈ stmt.keys, keyOk env k = true) →
      stmt.keys.length < 2 →
      CreateStatistics env stmt = .error SqlErr.invalidObjectDefinition) ∧
    (∀ (env : Env) (stmt : CreateStatsStmt),
      statNameExists env stmt.defname env.creationNamespace = false →
      validRelKind env.relkind = true →
      (∀ k ∈ stmt.keys, keyOk env k = true) →
      STATS_MAX_DIMENSIONS < stmt.keys.length →
      CreateStatistics env stmt = .error SqlErr.tooManyColumns) ∧
    (∀ (env : Env) (stmt : CreateStatsStmt),
      statNameExists env stmt.defname env.creationNamespace = false →
      validRelKind env.relkind = true →
      (∀ k ∈ stmt.keys, keyOk env k = true) →
      stmt.keys.length ≤ STATS_MAX_DIMENSIONS →
      ¬ (stmt.keys.map (resolvedAttnum env)).Nodup →
      CreateStatistics env stmt = .error SqlErr.duplicateColumn) := by
  refine ⟨?_, ?_, ?_⟩
  · intro env stmt hname hkind hres hlen
    have hrl : resolveLoop env stmt.keys [] = .ok (stmt.keys.map (resolvedAttnum env)) := by
      have h8 : STATS_MAX_DIMENSIONS = 8 := rfl
      have := resolveLoop_ok env stmt.keys [] hres (by simp [h8]; omega)
      simpa using this
    simp only [CreateStatistics, hname, Bool.false_eq_true, if_false, ite_false]
    rw [if_neg (by simp [hkind]), hrl]
    simp only [List.length_map]
    rw [if_pos hlen]
  · intro env stmt hname hkind hres hlen
    apply createStatistics_resolve_error env stmt _ hname hkind
    apply resolveLoop_tooMany env stmt.keys []
    · intro k hk
      exact hres k (List.take_subset _ _ hk)
    · simp
    · simpa using hlen
  · intro env stmt hname hkind hres hlenM hdup
    have hrl : resolveLoop env stmt.keys [] = .ok (stmt.keys.map (resolvedAttnum env)) := by
      have := resolveLoop_ok env stmt.keys [] hres (by simpa using hlenM)
      simpa using this
    have hlen2 : 2 ≤ stmt.keys.length := by
      have := two_le_length_of_not_nodup _ hdup
      simpa using this
    have hperm : (List.insertionSort (· ≤ ·) (stmt.keys.map (resolvedAttnum env))).Perm
        (stmt.keys.map (resolvedAttnum env)) := List.perm_insertionSort _ _
    have hsorted : (List.insertionSort (· ≤ ·) (stmt.keys.map (resolvedAttnum env))).Sorted
        (· ≤ ·) := List.sorted_insertionSort _ _
    have hdc : checkDuplicateCols (List.insertionSort (· ≤ ·)
        (stmt.keys.map (resolvedAttnum env))) = .error SqlErr.duplicateColumn := by
      rcases checkDuplicateCols_cases (List.insertionSort (· ≤ ·)
          (stmt.keys.map (resolvedAttnum env))) with hok | herr
      · exfalso
        have hchain := (checkDuplicateCols_ok_iff _).mp hok
        have hnd := nodup_of_sorted_of_chain_ne _ hsorted hchain
        exact hdup (hperm.nodup_iff.mp hnd)
      · exact herr
    simp only [CreateStatistics, hname, Bool.false_eq_true, if_false, ite_false]
    rw [if_neg (by simp [hkind]), hrl]
    simp only [List.length_map]
    rw [if_neg (by omega), hdc]

theorem createStatistics_arity_and_duplicate_validation_witness :
    CreateStatistics tenv
      { defname := "s1", if_not_exists := false, keys := ["a"], options := [] } =
      .error SqlErr.invalidObjectDefinition ∧
    CreateStatistics tenv
      { defname := "s1", if_not_exists := false,
        keys := ["a", "b", "c", "d", "e", "f", "g", "h", "i"], options := [] } =
      .error SqlErr.tooManyColumns ∧
    CreateStatistics tenv
      { defname := "s1", if_not_exists := false, keys := ["b", "a", "b"], options := [] } =
      .error SqlErr.duplicateColumn :=
  ⟨createStatistics_arity_and_duplicate_validation.1 tenv
      { defname := "s1", if_not_exists := false, keys := ["a"], options := [] }
      (by decide) (by decide) (by decide) (by decide),
   createStatistics_arity_and_duplicate_validation.2.1 tenv
      { defname := "s1", if_not_exists := false,
        keys := ["a", "b", "c", "d", "e", "f", "g", "h", "i"], options := [] }
      (by decide) (by decide) (by decide) (by decide),
   createStatistics_arity_and_duplicate_validation.2.2 tenv
      { defname := "s1", if_not_exists := false, keys := ["b", "a", "b"], options := [] }
      (by decide) (by decide) (by decide) (by decide) (by decide)⟩

/-- Counterexample to claim C6 as stated: an input that both reuses the
existing name `s1` and references the nonexistent column `zzz` reports
the duplicate-name error, not the column-resolution failure, because the
name-uniqueness check runs before column resolution. -/
theorem createStatistics_name_check_precedes_columns :
    statNameExists tenvDup "s1" tenvDup.creationNamespace = true ∧
    lookupAttr tenvDup "zzz" = none ∧
    CreateStatistics tenvDup stmtBadColDupName = .error SqlErr.duplicateObject ∧
    SqlErr.duplicateObject ≠ SqlErr.undefinedColumn "zzz" := by decide

/-- Claim C6 (amended): the Catalog Writer's name-uniqueness check runs
first, before column resolution, so a duplicate name is reported (or
skipped) regardless of the column list; after it the steps run in order
Column Resolver → Definition Normalizer → Kind Selector → Catalog Writer
(insert) → Invalidation Notifier → Dependency Registrar, as witnessed by
every successful run's effect trace. -/
theorem createStatistics_step_order :
    (∀ (env : Env) (stmt : CreateStatsStmt),
      statNameExists env stmt.defname env.creationNamespace = true →
      stmt.if_not_exists = false →
      CreateStatistics env stmt = .error SqlErr.duplicateObject) ∧
    (∀ (env : Env) (stmt : CreateStatsStmt) (addr : ObjectAddress) (evs : List Event),
      CreateStatistics env stmt = .ok (addr, evs) →
      statNameExists env stmt.defname env.creationNamespace = false →
      ∃ row : StxRow,
        evs = [Event.insertRow row,
               Event.invalidateRel env.relid,
               Event.recordDep ⟨StatisticExtRelationId, env.freshOid, 0⟩
                 ⟨RelationRelationId, env.relid, 0⟩ DependencyType.auto,
               Event.recordDep ⟨StatisticExtRelationId, env.freshOid, 0⟩
                 ⟨NamespaceRelationId, env.creationNamespace, 0⟩ DependencyType.auto]) := by
  constructor
  · intro env stmt hdup hine
    simp [CreateStatistics, hdup, hine]
  · intro env stmt addr evs h hname
    obtain ⟨row, _, _, hevs⟩ := createStatistics_ok_shape env stmt addr evs h hname
    exact ⟨row, hevs⟩

theorem createStatistics_step_order_witness :
    CreateStatistics tenvDup stmtBadColDupName = .error SqlErr.duplicateObject ∧
    (∃ row : StxRow,
      demoEvs = [Event.insertRow row,
                 Event.invalidateRel tenv.relid,
                 Event.recordDep ⟨StatisticExtRelationId, tenv.freshOid, 0⟩
                   ⟨RelationRelationId, tenv.relid, 0⟩ DependencyType.auto,
                 Event.recordDep ⟨StatisticExtRelationId, tenv.freshOid, 0⟩
                   ⟨NamespaceRelationId, tenv.creationNamespace, 0⟩ DependencyType.auto]) :=
  ⟨createStatistics_step_order.1 tenvDup stmtBadColDupName (by decide) rfl,
   createStatistics_step_order.2 tenv stmtBA ⟨StatisticExtRelationId, tenv.freshOid, 0⟩
     demoEvs (by decide) (by decide)⟩

/-- Claim C7: `RemoveStatisticsById` on an identifier with a catalog row
invalidates plans for the owning table and deletes the row (in that
order); on an identifier with no catalog row it fails with the
internal-consistency error, not a user-facing one. -/
theorem removeStatisticsById_contract (env : Env) (statsOid : Nat) :
    (∀ row : StxRow,
      env.stxCatalog.find? (fun r => r.oid == statsOid) = some row →
      RemoveStatisticsById env statsOid =
        .ok [Event.invalidateRel row.stxrelid, Event.deleteRow statsOid]) ∧
    (env.stxCatalog.find? (fun r => r.oid == statsOid) = none →
      RemoveStatisticsById env statsOid = .error SqlErr.internalCacheLookupFailed) := by
  constructor
  · intro row h
    simp [RemoveStatisticsById, h]
  · intro h
    simp [RemoveStatisticsById, h]

theorem removeStatisticsById_contract_witness :
    RemoveStatisticsById tenvDup 777 =
      .ok [Event.invalidateRel s1row.stxrelid, Event.deleteRow 777] ∧
    RemoveStatisticsById tenv 777 = .error SqlErr.internalCacheLookupFailed :=
  ⟨(removeStatisticsById_contract tenvDup 777).1 s1row (by decide),
   (removeStatisticsById_contract tenv 777).2 (by decide)⟩

/-- Claim C8: every run of `CreateStatistics` that actually creates an
object (its trace contains a catalog insert) registers exactly two
dependency edges, both `DEPENDENCY_AUTO`: new object → target table and
new object → owning schema. -/
theorem createStatistics_two_auto_dependencies (env : Env) (stmt : CreateStatsStmt)
    (addr : ObjectAddress) (evs : List Event)
    (h : CreateStatistics env stmt = .ok (addr, evs))
    (hcreated : ∃ row : StxRow, Event.insertRow row ∈ evs) :
    evs.filter isDepEvent =
      [Event.recordDep ⟨StatisticExtRelationId, env.freshOid, 0⟩
         ⟨RelationRelationId, env.relid, 0⟩ DependencyType.auto,
       Event.recordDep ⟨StatisticExtRelationId, env.freshOid, 0⟩
         ⟨NamespaceRelationId, env.creationNamespace, 0⟩ DependencyType.auto] := by
  cases hname : statNameExists env stmt.defname env.creationNamespace with
  | false =>
    obtain ⟨row, _, _, hevs⟩ := createStatistics_ok_shape env stmt addr evs h hname
    rw [hevs]
    simp [isDepEvent, List.filter]
  | true =>
    simp only [CreateStatistics, hname, if_true, ite_true] at h
    cases hine : stmt.if_not_exists with
    | false =>
      rw [hine] at h
      exact absurd h (by simp)
    | true =>
      rw [hine] at h
      simp only [if_true, ite_true, Except.ok.injEq, Prod.mk.injEq] at h
      obtain ⟨row, hrow⟩ := hcreated
      rw [← h.2] at hrow
      simp at hrow

theorem createStatistics_two_auto_dependencies_witness :
    demoEvs.filter isDepEvent =
      [Event.recordDep ⟨StatisticExtRelationId, tenv.freshOid, 0⟩
         ⟨RelationRelationId, tenv.relid, 0⟩ DependencyType.auto,
       Event.recordDep ⟨StatisticExtRelationId, tenv.freshOid, 0⟩
         ⟨NamespaceRelationId, tenv.creationNamespace, 0⟩ DependencyType.auto] :=
  createStatistics_two_auto_dependencies tenv stmtBA
    ⟨StatisticExtRelationId, tenv.freshOid, 0⟩ demoEvs (by decide)
    ⟨demoRow, by decide⟩

/-- Claim C10: for every input list longer than `STATS_MAX_DIMENSIONS`
whose first `STATS_MAX_DIMENSIONS + 1` names all resolve to valid
attributes, the reported failure is `tooManyColumns` (even if the list
contains duplicates), because the dimension bound is checked
incrementally during resolution while duplicate detection runs only
after the whole list is resolved and sorted. -/
theorem createStatistics_too_many_columns_precedence (env : Env) (stmt : CreateStatsStmt)
    (hname : statNameExists env stmt.defname env.creationNamespace = false)
    (hkind : validRelKind env.relkind = true)
    (hres : ∀ k ∈ stmt.keys.take (STATS_MAX_DIMENSIONS + 1), keyOk env k = true)
    (hlen : STATS_MAX_DIMENSIONS < stmt.keys.length) :
    CreateStatistics env stmt = .error SqlErr.tooManyColumns := by
  apply createStatistics_resolve_error env stmt _ hname hkind
  apply resolveLoop_tooMany env stmt.keys []
  · simpa using hres
  · simp
  · simpa using hlen

theorem createStatistics_too_many_columns_precedence_witness :
    (¬ (stmt9dup.keys.map (resolvedAttnum tenv)).Nodup) ∧
    CreateStatistics tenv stmt9dup = .error SqlErr.tooManyColumns :=
  ⟨by decide,
   createStatistics_too_many_columns_precedence tenv stmt9dup
     (by decide) (by decide) (by decide) (by decide)⟩
